import Mathlib

/- Shallow embedding of the two source files of this documentation repository:
the exported sidebar configuration (the apiSidebar module) and the
ReaderFeedback React component (src/components/ReaderFeedback/index.js).
Each definition mirrors one piece of the source; theorems settle the claims
about them. -/

/- ### Sidebar configuration module -/

/-- The link object of a sidebar category (type / title / slug fields). -/
structure SidebarLink where
  type : String
  title : String
  slug : String

/-- One category entry of the exported sidebar: its type and label strings,
the collapsible and collapsed flags, the generated-index link, and the ordered
list of content-page identifiers under it. -/
structure SidebarCategory where
  type : String
  label : String
  collapsible : Bool
  collapsed : Bool
  link : SidebarLink
  items : List String

/-- The static sidebar configuration the module exports: the value of the
apiSidebar key, transcribed literally from the source. -/
def apiSidebar : List SidebarCategory :=
  [⟨"category", "Introduction", true, false,
    ⟨"generated-index", "Introduction", "/"⟩,
    ["goals", "anti-goals", "json-rpc", "pagination", "outstanding-questions"]⟩,
   ⟨"category", "Request/Response Methods", true, false,
    ⟨"generated-index", "Request/Response Methods", "methods"⟩,
    ["methods/getAccount", "methods/getHealth", "methods/getLatestLedger",
     "methods/getLedgerEntry", "methods/getContractData", "methods/getEvents",
     "methods/getNetwork", "methods/getTransactionStatus",
     "methods/requestAirdrop", "methods/sendTransaction",
     "methods/simulateTransaction"]⟩]

/-- All page identifiers listed under all categories of the sidebar, in
document order. -/
def sidebarItemIds : List String :=
  (apiSidebar.map SidebarCategory.items).flatten

/- ### ReaderFeedback component -/

/-- A JavaScript runtime exception. In a strict-mode ES module, evaluating an
identifier that has no binding in any enclosing scope throws a ReferenceError
carrying the identifier's name. -/
inductive JSError where
  | referenceError (name : String)
deriving DecidableEq

/-- The object literal the component passes to window.ga: the hitType field
plus the event category, action, label and value fields. -/
structure GAEvent where
  hitType : String
  eventCategory : String
  eventAction : String
  eventLabel : String
  eventValue : Nat
deriving DecidableEq

/-- The ambient browser globals that giveFeedback reads: whether window.ga is
defined, and the binding the surrounding global scope gives (if any) to the
free identifier named label. The component module itself declares no variable
of that name, so in the page as shipped the binding is none. -/
structure BrowserEnv where
  gaPresent : Bool
  labelBinding : Option String
deriving DecidableEq

/-- Evaluation of the identifier named label inside giveFeedback. The module
has no declaration for it, so the result is whatever binding the ambient
global scope provides, and a thrown ReferenceError when there is none. -/
def resolveLabel (env : BrowserEnv) : Except JSError String :=
  match env.labelBinding with
  | some v => Except.ok v
  | none => Except.error (JSError.referenceError "label")

/-- The giveFeedback click handler. If window.ga is present it first builds
the event object, which evaluates the free identifier named label, and sends
the event; then (reached only if nothing threw) it sets the feedbackGiven
flag to true. When window.ga is absent the send is skipped entirely and the
flag is still set. The result is the new flag value paired with the list of
events delivered to window.ga, or the exception that was thrown. The pageId
prop is in scope for the closure but never used by the source. -/
def giveFeedback (pageId : String) (env : BrowserEnv) (value : Nat) :
    Except JSError (Bool × List GAEvent) :=
  if env.gaPresent then
    match resolveLabel env with
    | Except.error e => Except.error e
    | Except.ok label =>
        Except.ok (true, [⟨"event", "button", "feedback", label, value⟩])
  else
    Except.ok (true, [])

/-- One clickable control of the rendered question: its className and the
value its onClick closure passes to giveFeedback. -/
structure FeedbackControl where
  className : String
  clickValue : Nat
deriving DecidableEq

/-- The body of the rendered widget: either the thanks message, or the
question together with its clickable controls. -/
inductive FeedbackView where
  | thanks
  | question (controls : List FeedbackControl)
deriving DecidableEq

/-- The two controls the question branch renders: the thumbs-up icon whose
onClick calls giveFeedback with 1, then the thumbs-down icon whose onClick
calls giveFeedback with 0. -/
def feedbackControls : List FeedbackControl :=
  [⟨"feedback_thumbsup", 1⟩, ⟨"feedback_thumbsdown", 0⟩]

/-- The returned JSX as a function of the feedbackGiven flag: the thanks
message when the flag is set, otherwise the question with the two controls. -/
def renderBody (feedbackGiven : Bool) : FeedbackView :=
  if feedbackGiven then FeedbackView.thanks
  else FeedbackView.question feedbackControls

/-- One render of the ReaderFeedback component at a given flag value: outside
a browser it returns null (modelled as none) before anything else runs;
in a browser it returns the body for the current flag. -/
def ReaderFeedback (pageId : String) (isBrowser : Bool) (feedbackGiven : Bool) :
    Option FeedbackView :=
  if isBrowser then some (renderBody feedbackGiven) else none

/-- The initial value passed to useState for the feedbackGiven flag. -/
def initialFeedbackGiven : Bool := false

/-- A mount of the component: outside a browser the early return yields null
and no state hook, handler or telemetry call is ever reached (none); in a
browser the flag is initialised to false and the initial body rendered. -/
def ReaderFeedbackMount (pageId : String) (isBrowser : Bool) :
    Option (Bool × FeedbackView) :=
  if isBrowser then some (initialFeedbackGiven, renderBody initialFeedbackGiven)
  else none

/-- The controls present in a render result: none when the component rendered
null or the thanks message. -/
def viewControls : Option FeedbackView → List FeedbackControl
  | some (FeedbackView.question cs) => cs
  | _ => []

/-- Effect of one user click at flag state flag: if the thanks message is
showing there is no control to click and nothing happens; otherwise the
clicked control runs giveFeedback. A thrown exception propagates out of the
handler, so the state update never executes and no event is delivered. -/
def processClick (pageId : String) (env : BrowserEnv) (flag : Bool)
    (value : Nat) : Bool × List GAEvent :=
  match renderBody flag with
  | FeedbackView.thanks => (flag, [])
  | FeedbackView.question _ =>
      match giveFeedback pageId env value with
      | Except.error _ => (flag, [])
      | Except.ok r => r

/-- A whole interaction trace over one mount: the clicks are processed in
order from the given flag state; the result is the final flag together with
every event delivered to window.ga along the way. -/
def runClicks (pageId : String) (env : BrowserEnv) :
    Bool → List Nat → Bool × List GAEvent
  | flag, [] => (flag, [])
  | flag, v :: vs =>
      let r := processClick pageId env flag v
      let rest := runClicks pageId env r.1 vs
      (rest.1, r.2 ++ rest.2)

/- ### Helper lemmas -/

/-- From the given state no click changes anything and no event is sent. -/
theorem runClicks_from_given (p : String) (env : BrowserEnv)
    (clicks : List Nat) : runClicks p env true clicks = (true, []) := by
  induction clicks with
  | nil => rfl
  | cons v vs ih => simp [runClicks, processClick, renderBody, ih]

/-- Over any trace, at most one telemetry event is ever delivered. -/
theorem runClicks_events_le_one (p : String) (env : BrowserEnv) (f : Bool)
    (clicks : List Nat) : ((runClicks p env f clicks).2).length ≤ 1 := by
  induction clicks generalizing f with
  | nil => simp [runClicks]
  | cons v vs ih =>
    cases f with
    | true => simp [runClicks_from_given]
    | false =>
      rcases env with ⟨ga, lb⟩
      cases ga with
      | false =>
        simp [runClicks, processClick, renderBody, giveFeedback,
          runClicks_from_given]
      | true =>
        cases lb with
        | none =>
          simpa [runClicks, processClick, renderBody, giveFeedback,
            resolveLabel] using ih false
        | some l =>
          simp [runClicks, processClick, renderBody, giveFeedback,
            resolveLabel, runClicks_from_given]

/- ### Claims -/

/-- Claim C1: the claim says that for every click in the not-given state the
handler completes regardless of whether window.ga is present, setting the
flag and firing a best-effort event. The code contradicts this: with
window.ga present and the module as shipped (no binding for the identifier
named label), building the event object throws a ReferenceError, so
setFeedbackGiven never runs, the flag stays false and no event is sent.
This theorem evaluates the code at that failing input. -/
theorem giveFeedback_throws_when_ga_present :
    giveFeedback "page-one" ⟨true, none⟩ 1 =
      Except.error (JSError.referenceError "label") ∧
    processClick "page-one" ⟨true, none⟩ false 1 = (false, []) :=
  ⟨rfl, rfl⟩

/-- Claim C2: the claim says that whenever window.ga is present a click sends
exactly one event carrying category, action, label and value. The code
contradicts this: with no binding for the identifier named label (the module
declares none) the handler throws before window.ga is called, so zero events
are sent. The second conjunct records the event shape that the send would
produce were a label binding supplied by the surrounding page. -/
theorem ga_present_sends_no_event :
    giveFeedback "page-two" ⟨true, none⟩ 0 =
      Except.error (JSError.referenceError "label") ∧
    giveFeedback "page-two" ⟨true, some "lbl"⟩ 0 =
      Except.ok (true, [⟨"event", "button", "feedback", "lbl", 0⟩]) :=
  ⟨rfl, rfl⟩

/-- Claim C3: when window.ga is absent a click does not throw: the telemetry
send is skipped with no event delivered, the flag is set to true, and the
widget then renders the thanks message. -/
theorem giveFeedback_no_ga (p : String) (env : BrowserEnv) (v : Nat)
    (h : env.gaPresent = false) :
    giveFeedback p env v = Except.ok (true, []) ∧
    renderBody true = FeedbackView.thanks := by
  refine ⟨?_, rfl⟩
  simp [giveFeedback, h]

/-- Witness for claim C3 at a concrete input. -/
theorem giveFeedback_no_ga_witness :
    giveFeedback "page-three" ⟨false, none⟩ 1 = Except.ok (true, []) ∧
    renderBody true = FeedbackView.thanks :=
  giveFeedback_no_ga "page-three" ⟨false, none⟩ 1 rfl

/-- Claim C4: once the flag is set, every render of the mounted widget shows
only the thanks message with no controls, any further clicks leave the state
unchanged and deliver no event, and over any click trace of a mount starting
from the initial flag at most one telemetry event is ever delivered. -/
theorem feedbackGiven_absorbing (p : String) (env : BrowserEnv)
    (clicks : List Nat) :
    renderBody true = FeedbackView.thanks ∧
    viewControls (ReaderFeedback p true true) = [] ∧
    runClicks p env true clicks = (true, []) ∧
    ((runClicks p env initialFeedbackGiven clicks).2).length ≤ 1 :=
  ⟨rfl, rfl, runClicks_from_given p env clicks,
    runClicks_events_le_one p env initialFeedbackGiven clicks⟩

/-- Claim C5: the page identifiers listed under all categories of the sidebar
are pairwise distinct. -/
theorem sidebarItemIds_nodup : sidebarItemIds.Nodup := by decide

/-- Claim C6: evaluating the sidebar module yields a fixed value, an ordered
list of exactly two categories, Introduction then Request/Response Methods,
whose item lists are the five and eleven listed page identifiers in order. -/
theorem apiSidebar_fixed :
    apiSidebar.length = 2 ∧
    apiSidebar.map SidebarCategory.label =
      ["Introduction", "Request/Response Methods"] ∧
    apiSidebar.map SidebarCategory.items =
      [["goals", "anti-goals", "json-rpc", "pagination",
        "outstanding-questions"],
       ["methods/getAccount", "methods/getHealth", "methods/getLatestLedger",
        "methods/getLedgerEntry", "methods/getContractData",
        "methods/getEvents", "methods/getNetwork",
        "methods/getTransactionStatus", "methods/requestAirdrop",
        "methods/sendTransaction", "methods/simulateTransaction"]] :=
  ⟨rfl, rfl, rfl⟩

/-- Claim C7: on every mount in a browser, for every pageId, the flag is
initialised to false and the widget renders the question with the thumbs-up
and thumbs-down controls; the mount takes no prior-feedback input at all, so
the start state is independent of any feedback given before a remount. -/
theorem mount_starts_not_given (p : String) :
    ReaderFeedbackMount p true =
      some (false, FeedbackView.question
        [⟨"feedback_thumbsup", 1⟩, ⟨"feedback_thumbsdown", 0⟩]) := rfl

/-- Claim C8: outside a browser the component returns null for every pageId,
before the state hook, the handlers or any telemetry call is reached. -/
theorem ssr_renders_null (p : String) (f : Bool) :
    ReaderFeedbackMount p false = none ∧ ReaderFeedback p false f = none :=
  ⟨rfl, rfl⟩

/-- Claim C9: the behaviour is independent of the pageId prop: for any two
pageId values the render, the mount and the handler result (including any
event and its label field) coincide. -/
theorem pageId_noninterference (p q : String) (b f : Bool) (env : BrowserEnv)
    (v : Nat) :
    ReaderFeedback p b f = ReaderFeedback q b f ∧
    ReaderFeedbackMount p b = ReaderFeedbackMount q b ∧
    giveFeedback p env v = giveFeedback q env v :=
  ⟨rfl, rfl, rfl⟩

/-- Claim C10: in every rendered view, a thumbs-up control passes 1 to the
handler, a thumbs-down control passes 0, and 1 and 0 are the only values any
rendered control ever passes. -/
theorem click_values (p : String) (b f : Bool) (c : FeedbackControl)
    (hc : c ∈ viewControls (ReaderFeedback p b f)) :
    (c.className = "feedback_thumbsup" → c.clickValue = 1) ∧
    (c.className = "feedback_thumbsdown" → c.clickValue = 0) ∧
    (c.clickValue = 1 ∨ c.clickValue = 0) := by
  cases b <;> cases f <;>
    simp [ReaderFeedback, renderBody, viewControls, feedbackControls] at hc
  rcases hc with h | h <;> subst h <;> simp

/-- Witness for claim C10 at a concrete rendered control. -/
theorem click_values_witness :
    (⟨"feedback_thumbsup", 1⟩ : FeedbackControl) ∈
      viewControls (ReaderFeedback "page-ten" true false) ∧
    (((⟨"feedback_thumbsup", 1⟩ : FeedbackControl).className =
        "feedback_thumbsup" →
      (⟨"feedback_thumbsup", 1⟩ : FeedbackControl).clickValue = 1) ∧
     ((⟨"feedback_thumbsup", 1⟩ : FeedbackControl).className =
        "feedback_thumbsdown" →
      (⟨"feedback_thumbsup", 1⟩ : FeedbackControl).clickValue = 0) ∧
     ((⟨"feedback_thumbsup", 1⟩ : FeedbackControl).clickValue = 1 ∨
      (⟨"feedback_thumbsup", 1⟩ : FeedbackControl).clickValue = 0)) :=
  ⟨by decide, click_values "page-ten" true false ⟨"feedback_thumbsup", 1⟩
    (by decide)⟩
